import Mathlib

/-!
Verification of the multi-tenant WhatsApp connection lifecycle and
credential-persistence subsystem.

The definitions below are shallow embeddings of the TypeScript source:

* `bufferToJSON` / `jsonToBuffer` — src/whatsapp/dbAuthState.ts, the credential
  codec that replaces Buffer and Uint8Array values by tagged base64 objects and
  back.  JavaScript values are modelled by `JSVal`; `Buffer.toString` with the
  base64 argument and `Buffer.from` with the base64 argument are modelled by
  `b64encode` / `b64decode`.
* `initializeClient_onClose` / `initializeClient_onOpen` — the
  connection.update handler of `initializeClient` in src/whatsapp/manager.ts.
* `initializeQRClient_onClose` and `initializeQRClient_onOpenMigration` — the
  connection.update handler of the database-backed `initializeQRClient`
  (pairing flow), including the session-migration block of its open branch.
* `waitForPermanentOpen` — the 30-second wait-for-open promise installed on the
  permanent socket during pairing migration.
* `UserService_markAsDisconnected` — UserService.markAsDisconnected in
  src/services/UserService.ts.
* `initializeAccountsLoop` — the per-account loop of `initializeAccounts` in
  src/services/legacyAccountManager.ts (database-session variant).
* `keysSetHandler` — the keys.set handler of `useAuthStateFromDB` in
  src/whatsapp/dbAuthState.ts together with the saveCreds store write.
-/

/-! ## Base64

Model of Node `Buffer.toString` with the base64 encoding and `Buffer.from`
with the base64 encoding, for byte lists (each entry < 256).  The encoder
emits padded base64; the decoder consumes groups of four characters and stops
at a padding character, as Node does on the padded output the encoder
produces. -/

/-- The base64 alphabet. -/
def b64Alphabet : List Char :=
  "ABCDEFGHIJKLMNOPQRSTUVWXYZabcdefghijklmnopqrstuvwxyz0123456789+/".toList

/-- Character for a 6-bit group. -/
def sextetChar (n : Nat) : Char := b64Alphabet.getD n 'A'

/-- Index of a character in a character list. -/
def charIndex (c : Char) : List Char → Option Nat
  | [] => none
  | d :: ds => if d = c then some 0 else (charIndex c ds).map (· + 1)

/-- 6-bit value of a base64 character, if any. -/
def charSextet (c : Char) : Option Nat := charIndex c b64Alphabet

/-- Base64 encoding of a byte list, three bytes to four characters with
padding. -/
def b64EncodeChunks : List Nat → List Char
  | [] => []
  | [a] => [sextetChar (a / 4), sextetChar (a % 4 * 16), '=', '=']
  | [a, b] =>
      [sextetChar (a / 4), sextetChar (a % 4 * 16 + b / 16), sextetChar (b % 16 * 4), '=']
  | a :: b :: c :: rest =>
      sextetChar (a / 4) :: sextetChar (a % 4 * 16 + b / 16) ::
        sextetChar (b % 16 * 4 + c / 64) :: sextetChar (c % 64) :: b64EncodeChunks rest

/-- Model of Buffer.toString with the base64 encoding. -/
def b64encode (bs : List Nat) : String := String.mk (b64EncodeChunks bs)

/-- Decode one group of four base64 characters, honouring padding. -/
def decode4 (c1 c2 c3 c4 : Char) : List Nat :=
  match charSextet c1, charSextet c2 with
  | some s1, some s2 =>
      if c3 = '=' then [s1 * 4 + s2 / 16]
      else
        match charSextet c3 with
        | some s3 =>
            if c4 = '=' then [s1 * 4 + s2 / 16, s2 % 16 * 16 + s3 / 4]
            else
              match charSextet c4 with
              | some s4 => [s1 * 4 + s2 / 16, s2 % 16 * 16 + s3 / 4, s3 % 4 * 64 + s4]
              | none => [s1 * 4 + s2 / 16, s2 % 16 * 16 + s3 / 4]
        | none => [s1 * 4 + s2 / 16]
  | _, _ => []

/-- Base64 decoding of a character list; a padding character ends the
input. -/
def b64DecodeChars : List Char → List Nat
  | c1 :: c2 :: c3 :: c4 :: rest =>
      if c3 = '=' ∨ c4 = '=' then decode4 c1 c2 c3 c4
      else decode4 c1 c2 c3 c4 ++ b64DecodeChars rest
  | _ => []

/-- Model of Buffer.from with the base64 encoding. -/
def b64decode (s : String) : List Nat := b64DecodeChars s.toList

theorem charSextet_sextetChar {n : Nat} (h : n < 64) : charSextet (sextetChar n) = some n := by
  have key : ∀ m : Fin 64, charSextet (sextetChar m.val) = some m.val := by decide
  exact key ⟨n, h⟩

theorem sextetChar_ne_pad {n : Nat} (h : n < 64) : sextetChar n ≠ '=' := by
  have key : ∀ m : Fin 64, sextetChar m.val ≠ '=' := by decide
  exact key ⟨n, h⟩

theorem b64DecodeChars_encodeChunks :
    ∀ bs : List Nat, (∀ x ∈ bs, x < 256) → b64DecodeChars (b64EncodeChunks bs) = bs
  | [], _ => rfl
  | [a], h => by
      have ha : a < 256 := h a (by simp)
      have h1 : a / 4 < 64 := by omega
      have h2 : a % 4 * 16 < 64 := by omega
      simp only [b64EncodeChunks, b64DecodeChars, decode4,
        charSextet_sextetChar h1, charSextet_sextetChar h2, true_or, if_true,
        List.cons.injEq, and_true]
      omega
  | [a, b], h => by
      have ha : a < 256 := h a (by simp)
      have hb : b < 256 := h b (by simp)
      have h1 : a / 4 < 64 := by omega
      have h2 : a % 4 * 16 + b / 16 < 64 := by omega
      have h3 : b % 16 * 4 < 64 := by omega
      simp only [b64EncodeChunks, b64DecodeChars, decode4,
        charSextet_sextetChar h1, charSextet_sextetChar h2, charSextet_sextetChar h3,
        sextetChar_ne_pad h3, or_true, if_true, if_false, List.cons.injEq, and_true]
      constructor <;> omega
  | a :: b :: c :: rest, h => by
      have ha : a < 256 := h a (by simp)
      have hb : b < 256 := h b (by simp)
      have hc : c < 256 := h c (by simp)
      have h1 : a / 4 < 64 := by omega
      have h2 : a % 4 * 16 + b / 16 < 64 := by omega
      have h3 : b % 16 * 4 + c / 64 < 64 := by omega
      have h4 : c % 64 < 64 := by omega
      have hrest : ∀ x ∈ rest, x < 256 := fun x hx => h x (by simp [hx])
      simp only [b64EncodeChunks, b64DecodeChars, decode4,
        charSextet_sextetChar h1, charSextet_sextetChar h2, charSextet_sextetChar h3,
        charSextet_sextetChar h4, sextetChar_ne_pad h3, sextetChar_ne_pad h4,
        or_self, if_false, List.cons_append, List.nil_append,
        b64DecodeChars_encodeChunks rest hrest, List.cons.injEq]
      refine ⟨by omega, by omega, by omega, trivial⟩

/-- Decoding inverts encoding on byte lists. -/
theorem b64decode_encode (bs : List Nat) (h : ∀ x ∈ bs, x < 256) :
    b64decode (b64encode bs) = bs :=
  b64DecodeChars_encodeChunks bs h

/-! ## JavaScript values

`JSVal` models the JavaScript values the credential codec walks: the scalars
null, boolean, number and string, binary values (Buffer and Uint8Array, a byte
list), arrays, and plain objects (ordered own-enumerable string fields, as
for-in enumerates them).  The protobuf branch of bufferToJSON inspects
constructor names, which plain values do not carry; protobuf message objects
are outside this model and `JSVal.obj` covers the plain-object branch. -/

inductive JSVal where
  | null : JSVal
  | bool : Bool → JSVal
  | num : Int → JSVal
  | str : String → JSVal
  | buf : List Nat → JSVal
  | arr : List JSVal → JSVal
  | obj : List (String × JSVal) → JSVal
deriving Repr

mutual

/-- Structural boolean equality on `JSVal`. -/
def JSVal.beq : JSVal → JSVal → Bool
  | .null, .null => true
  | .bool a, .bool b => a == b
  | .num a, .num b => a == b
  | .str a, .str b => a == b
  | .buf a, .buf b => a == b
  | .arr a, .arr b => JSVal.beqList a b
  | .obj a, .obj b => JSVal.beqFields a b
  | _, _ => false

/-- `JSVal.beq` on element lists. -/
def JSVal.beqList : List JSVal → List JSVal → Bool
  | [], [] => true
  | x :: xs, y :: ys => JSVal.beq x y && JSVal.beqList xs ys
  | _, _ => false

/-- `JSVal.beq` on field lists. -/
def JSVal.beqFields : List (String × JSVal) → List (String × JSVal) → Bool
  | [], [] => true
  | (k, v) :: fs, (k', v') :: fs' => k == k' && JSVal.beq v v' && JSVal.beqFields fs fs'
  | _, _ => false

end

mutual

theorem JSVal.beq_iff_eq : ∀ a b : JSVal, JSVal.beq a b = true ↔ a = b
  | .null, b => by cases b <;> simp [JSVal.beq]
  | .bool a, b => by cases b <;> simp [JSVal.beq]
  | .num a, b => by cases b <;> simp [JSVal.beq]
  | .str a, b => by cases b <;> simp [JSVal.beq]
  | .buf a, b => by cases b <;> simp [JSVal.beq]
  | .arr a, b => by
      cases b <;> simp [JSVal.beq]
      exact JSVal.beqList_iff_eq a _
  | .obj a, b => by
      cases b <;> simp [JSVal.beq]
      exact JSVal.beqFields_iff_eq a _

theorem JSVal.beqList_iff_eq : ∀ a b : List JSVal, JSVal.beqList a b = true ↔ a = b
  | [], b => by cases b <;> simp [JSVal.beqList]
  | x :: xs, b => by
      cases b with
      | nil => simp [JSVal.beqList]
      | cons y ys =>
          simp only [JSVal.beqList, Bool.and_eq_true, List.cons.injEq]
          rw [JSVal.beq_iff_eq x y, JSVal.beqList_iff_eq xs ys]

theorem JSVal.beqFields_iff_eq : ∀ a b : List (String × JSVal),
    JSVal.beqFields a b = true ↔ a = b
  | [], b => by cases b <;> simp [JSVal.beqFields]
  | (k, v) :: fs, b => by
      cases b with
      | nil => simp [JSVal.beqFields]
      | cons kv' fs' =>
          obtain ⟨k', v'⟩ := kv'
          simp only [JSVal.beqFields, Bool.and_eq_true, List.cons.injEq, Prod.mk.injEq]
          rw [JSVal.beq_iff_eq v v', JSVal.beqFields_iff_eq fs fs']
          constructor
          · rintro ⟨⟨hk, hv⟩, hf⟩
            exact ⟨⟨eq_of_beq hk, hv⟩, hf⟩
          · rintro ⟨⟨hk, hv⟩, hf⟩
            exact ⟨⟨beq_of_eq hk, hv⟩, hf⟩

end

instance : DecidableEq JSVal := fun a b =>
  decidable_of_iff (JSVal.beq a b = true) (JSVal.beq_iff_eq a b)

/-- Property access on a plain object: value of the first field with the
given key (JavaScript objects hold each key at most once). -/
def lookupField : List (String × JSVal) → String → Option JSVal
  | [], _ => none
  | (k', v) :: fs, k => if k' = k then some v else lookupField fs k

/-! ## The credential codec (src/whatsapp/dbAuthState.ts) -/

mutual

/-- bufferToJSON: recursively replace every Buffer or Uint8Array by a tagged
plain object holding its base64 string, leaving other scalars alone and
walking arrays and plain objects.  The two tag fields are named type and
data, the type field holding the string Buffer. -/
def bufferToJSON : JSVal → JSVal
  | .buf bs => .obj [("type", .str "Buffer"), ("data", .str (b64encode bs))]
  | .arr xs => .arr (bufferToJSONList xs)
  | .obj fs => .obj (bufferToJSONFields fs)
  | .null => .null
  | .bool b => .bool b
  | .num n => .num n
  | .str s => .str s

/-- obj.map over bufferToJSON for array elements. -/
def bufferToJSONList : List JSVal → List JSVal
  | [] => []
  | x :: xs => bufferToJSON x :: bufferToJSONList xs

/-- The for-in loop of bufferToJSON over object fields. -/
def bufferToJSONFields : List (String × JSVal) → List (String × JSVal)
  | [] => []
  | (k, v) :: fs => (k, bufferToJSON v) :: bufferToJSONFields fs

end

mutual

/-- jsonToBuffer: recursively replace every plain object whose type field is
the string Buffer and whose data field is a string by the Buffer obtained by
base64-decoding that string, walking arrays and other objects. -/
def jsonToBuffer : JSVal → JSVal
  | .obj fs =>
      match lookupField fs "type", lookupField fs "data" with
      | some (.str t), some (.str d) =>
          if t = "Buffer" then .buf (b64decode d) else .obj (jsonToBufferFields fs)
      | _, _ => .obj (jsonToBufferFields fs)
  | .arr xs => .arr (jsonToBufferList xs)
  | .null => .null
  | .bool b => .bool b
  | .num n => .num n
  | .str s => .str s
  | .buf bs => .buf bs

/-- obj.map over jsonToBuffer for array elements. -/
def jsonToBufferList : List JSVal → List JSVal
  | [] => []
  | x :: xs => jsonToBuffer x :: jsonToBufferList xs

/-- The for-in loop of jsonToBuffer over object fields. -/
def jsonToBufferFields : List (String × JSVal) → List (String × JSVal)
  | [] => []
  | (k, v) :: fs => (k, jsonToBuffer v) :: jsonToBufferFields fs

end

/-- A plain object already carrying the codec tag shape: a type field holding
the string Buffer next to a data field holding a string. -/
def bufTagged (fs : List (String × JSVal)) : Bool :=
  match lookupField fs "type", lookupField fs "data" with
  | some (.str t), some (.str _) => t == "Buffer"
  | _, _ => false

mutual

/-- Values the protocol client can hand the codec: every byte of a binary
value fits a byte, and no plain object already carries the codec tag shape
(a real Buffer carries its bytes; only the encoder introduces the tag). -/
def clientValue : JSVal → Bool
  | .buf bs => bs.all (fun x => decide (x < 256))
  | .arr xs => clientValueList xs
  | .obj fs => !bufTagged fs && clientValueFields fs
  | _ => true

/-- `clientValue` on element lists. -/
def clientValueList : List JSVal → Bool
  | [] => true
  | x :: xs => clientValue x && clientValueList xs

/-- `clientValue` on field lists. -/
def clientValueFields : List (String × JSVal) → Bool
  | [] => true
  | (_, v) :: fs => clientValue v && clientValueFields fs

end

mutual

/-- No Buffer or Uint8Array anywhere in the value. -/
def bufFree : JSVal → Bool
  | .buf _ => false
  | .arr xs => bufFreeList xs
  | .obj fs => bufFreeFields fs
  | _ => true

/-- `bufFree` on element lists. -/
def bufFreeList : List JSVal → Bool
  | [] => true
  | x :: xs => bufFree x && bufFreeList xs

/-- `bufFree` on field lists. -/
def bufFreeFields : List (String × JSVal) → Bool
  | [] => true
  | (_, v) :: fs => bufFree v && bufFreeFields fs

end

theorem lookupField_bufferToJSONFields (fs : List (String × JSVal)) (k : String) :
    lookupField (bufferToJSONFields fs) k = (lookupField fs k).map bufferToJSON := by
  induction fs with
  | nil => rfl
  | cons kv fs ih =>
      obtain ⟨k', v⟩ := kv
      simp only [bufferToJSONFields, lookupField]
      by_cases h : k' = k
      · simp [h]
      · simp [h, ih]

theorem bufferToJSON_eq_str {v : JSVal} {s : String} (h : bufferToJSON v = .str s) :
    v = .str s := by
  cases v with
  | str s' => exact h
  | null => exact absurd h (by simp [bufferToJSON])
  | bool b => exact absurd h (by simp [bufferToJSON])
  | num n => exact absurd h (by simp [bufferToJSON])
  | buf bs => exact absurd h (by simp [bufferToJSON])
  | arr xs => exact absurd h (by simp [bufferToJSON])
  | obj fs => exact absurd h (by simp [bufferToJSON])

mutual

theorem jsonToBuffer_bufferToJSON : ∀ v : JSVal, clientValue v = true →
    jsonToBuffer (bufferToJSON v) = v
  | .null, _ => rfl
  | .bool _, _ => rfl
  | .num _, _ => rfl
  | .str _, _ => rfl
  | .buf bs, h => by
      have hb : ∀ x ∈ bs, x < 256 := by
        simpa [clientValue, List.all_eq_true] using h
      have hred : jsonToBuffer (bufferToJSON (.buf bs)) = .buf (b64decode (b64encode bs)) := rfl
      rw [hred, b64decode_encode bs hb]
  | .arr xs, h => by
      have h' : clientValueList xs = true := by simpa [clientValue] using h
      show JSVal.arr (jsonToBufferList (bufferToJSONList xs)) = .arr xs
      rw [jsonToBufferList_bufferToJSONList xs h']
  | .obj fs, h => by
      simp only [clientValue, Bool.and_eq_true, Bool.not_eq_true'] at h
      have hfld := jsonToBufferFields_bufferToJSONFields fs h.2
      show jsonToBuffer (.obj (bufferToJSONFields fs)) = .obj fs
      simp only [jsonToBuffer]
      split
      · rename_i t d htyp hdata
        rw [lookupField_bufferToJSONFields] at htyp hdata
        obtain ⟨vt, hvt, hbt⟩ := Option.map_eq_some'.mp htyp
        obtain ⟨vd, hvd, hbd⟩ := Option.map_eq_some'.mp hdata
        have hvt' := bufferToJSON_eq_str hbt
        have hvd' := bufferToJSON_eq_str hbd
        subst hvt'
        subst hvd'
        by_cases ht : t = "Buffer"
        · exfalso
          have htag : bufTagged fs = true := by
            simp [bufTagged, hvt, hvd, ht]
          rw [h.1] at htag
          exact Bool.false_ne_true htag
        · rw [if_neg ht, hfld]
      · rw [hfld]

theorem jsonToBufferList_bufferToJSONList : ∀ xs : List JSVal, clientValueList xs = true →
    jsonToBufferList (bufferToJSONList xs) = xs
  | [], _ => rfl
  | x :: xs, h => by
      simp only [clientValueList, Bool.and_eq_true] at h
      simp only [bufferToJSONList, jsonToBufferList,
        jsonToBuffer_bufferToJSON x h.1, jsonToBufferList_bufferToJSONList xs h.2]

theorem jsonToBufferFields_bufferToJSONFields : ∀ fs : List (String × JSVal),
    clientValueFields fs = true → jsonToBufferFields (bufferToJSONFields fs) = fs
  | [], _ => rfl
  | (k, v) :: fs, h => by
      simp only [clientValueFields, Bool.and_eq_true] at h
      simp only [bufferToJSONFields, jsonToBufferFields,
        jsonToBuffer_bufferToJSON v h.1, jsonToBufferFields_bufferToJSONFields fs h.2]

end

mutual

theorem bufFree_bufferToJSON : ∀ v : JSVal, bufFree (bufferToJSON v) = true
  | .null => rfl
  | .bool _ => rfl
  | .num _ => rfl
  | .str _ => rfl
  | .buf _ => rfl
  | .arr xs => by
      show bufFreeList (bufferToJSONList xs) = true
      exact bufFreeList_bufferToJSONList xs
  | .obj fs => by
      show bufFreeFields (bufferToJSONFields fs) = true
      exact bufFreeFields_bufferToJSONFields fs

theorem bufFreeList_bufferToJSONList : ∀ xs : List JSVal,
    bufFreeList (bufferToJSONList xs) = true
  | [] => rfl
  | x :: xs => by
      simp only [bufferToJSONList, bufFreeList, Bool.and_eq_true]
      exact ⟨bufFree_bufferToJSON x, bufFreeList_bufferToJSONList xs⟩

theorem bufFreeFields_bufferToJSONFields : ∀ fs : List (String × JSVal),
    bufFreeFields (bufferToJSONFields fs) = true
  | [] => rfl
  | (k, v) :: fs => by
      simp only [bufferToJSONFields, bufFreeFields, Bool.and_eq_true]
      exact ⟨bufFree_bufferToJSON v, bufFreeFields_bufferToJSONFields fs⟩

end

/-! ## String-keyed maps

Model of the JavaScript Map operations used by the managers (get, set,
delete), as insertion-ordered association lists. -/

/-- Map.get. -/
def mapLookup {α : Type} : List (String × α) → String → Option α
  | [], _ => none
  | (k', v) :: m, k => if k' = k then some v else mapLookup m k

/-- Map.delete. -/
def mapErase {α : Type} : List (String × α) → String → List (String × α)
  | [], _ => []
  | (k', v) :: m, k => if k' = k then mapErase m k else (k', v) :: mapErase m k

/-- Map.set: replace in place when present, append otherwise. -/
def mapSet {α : Type} : List (String × α) → String → α → List (String × α)
  | [], k, v => [(k, v)]
  | (k', v') :: m, k, v =>
      if k' = k then (k, v) :: m else (k', v') :: mapSet m k v

theorem mapLookup_mapErase_self {α : Type} (m : List (String × α)) (k : String) :
    mapLookup (mapErase m k) k = none := by
  induction m with
  | nil => rfl
  | cons kv m ih =>
      obtain ⟨k', v⟩ := kv
      simp only [mapErase]
      by_cases h : k' = k
      · simp [h, ih]
      · simp [mapLookup, h, ih]

theorem mapLookup_mapSet_self {α : Type} (m : List (String × α)) (k : String) (v : α) :
    mapLookup (mapSet m k v) k = some v := by
  induction m with
  | nil => simp [mapSet, mapLookup]
  | cons kv m ih =>
      obtain ⟨k', v'⟩ := kv
      simp only [mapSet]
      by_cases h : k' = k
      · simp [h, mapLookup]
      · simp [mapLookup, h, ih]

/-! ## The steady-state connection manager (src/whatsapp/manager.ts)

`initializeClient` registers a connection.update handler.  Its open branch
stores the socket in the module-level clients map and clears the QR cache
entry; its close branch always deletes the clients entry, then either
schedules `initializeClient` again after 5000 ms (when the status code is not
DisconnectReason.loggedOut) or clears the QR cache entry.  The handler keeps
no reconnection counter of any kind. -/

/-- Baileys DisconnectReason.loggedOut. -/
def DisconnectReason_loggedOut : Nat := 401

/-- Baileys DisconnectReason.connectionClosed, a transient cause. -/
def DisconnectReason_connectionClosed : Nat := 428

/-- The module-level mutable maps of src/whatsapp/manager.ts: clients (token
to live socket, sockets numbered) and qrCodes (token to rendered QR). -/
structure MgrState where
  clients : List (String × Nat)
  qrCodes : List (String × String)
deriving DecidableEq, Repr

/-- getClient from src/whatsapp/manager.ts. -/
def getClient (token : String) (st : MgrState) : Option Nat :=
  mapLookup st.clients token

/-- Side effects the close branch can request beyond the map updates.  The
constructors markDisconnected and notifyDispatcher exist so that their
absence from the emitted actions is expressible; the handler itself never
produces them (its close branch only logs, updates the two maps and
optionally arms the reconnect timer). -/
inductive MgrAction where
  | scheduleReconnect (token : String) (delayMs : Nat)
  | markDisconnected (token : String) (notify : Bool)
  | notifyDispatcher (token : String)
deriving DecidableEq, Repr

/-- Result of one run of the close branch. -/
structure MgrCloseResult where
  state : MgrState
  actions : List MgrAction
deriving DecidableEq, Repr

/-- The close branch of the connection.update handler installed by
`initializeClient`.  statusCode is the Boom status of lastDisconnect (absent
when undefined). -/
def initializeClient_onClose (token : String) (statusCode : Option Nat)
    (st : MgrState) : MgrCloseResult :=
  let shouldReconnect := statusCode ≠ some DisconnectReason_loggedOut
  let st1 : MgrState := { st with clients := mapErase st.clients token }
  if shouldReconnect then
    { state := st1, actions := [.scheduleReconnect token 5000] }
  else
    { state := { st1 with qrCodes := mapErase st1.qrCodes token }, actions := [] }

/-- The open branch of the connection.update handler installed by
`initializeClient`: store the socket under the token, clear the QR entry. -/
def initializeClient_onOpen (token : String) (sockId : Nat) (st : MgrState) : MgrState :=
  { clients := mapSet st.clients token sockId,
    qrCodes := mapErase st.qrCodes token }

/-- Repeated transient closes through the steady-state handler: final state
and how many reconnections were scheduled. -/
def mgrTransientCloses (token : String) : Nat → MgrState → MgrState × Nat
  | 0, st => (st, 0)
  | n + 1, st =>
      let r := initializeClient_onClose token (some DisconnectReason_connectionClosed) st
      let rest := mgrTransientCloses token n r.state
      (rest.1, rest.2 + r.actions.count (.scheduleReconnect token 5000))

/-! ## The QR pairing manager (database variant of src/whatsapp/manager.ts)

`initializeQRClient` tracks reconnection attempts in a module-level map with
ceiling MAX_RECONNECTION_ATTEMPTS = 5, resets the counter on open, and on a
transient close either schedules itself again after 3000 ms (counter below
the ceiling, counter incremented) or clears everything and deletes the
temporary session (counter at the ceiling, or terminal cause, or account
already created). -/

/-- MAX_RECONNECTION_ATTEMPTS. -/
def MAX_RECONNECTION_ATTEMPTS : Nat := 5

/-- Per-session state touched by the close branch of `initializeQRClient`:
the reconnectionAttempts entry for this sessionId (absent when deleted), the
pendingQRCodes entry, and whether the temp session record still exists in the
store. -/
structure QRState where
  reconnectionAttempts : Option Nat
  pendingQR : Bool
  tempSessionExists : Bool
deriving DecidableEq, Repr

/-- Side effects of the close branch of `initializeQRClient`. -/
inductive QRAction where
  | scheduleReconnect (delayMs : Nat)
  | cleanupTempSession
deriving DecidableEq, Repr

/-- The close branch of the connection.update handler installed by the
database-backed `initializeQRClient`. -/
def initializeQRClient_onClose (statusCode : Option Nat) (accountCreated : Bool)
    (st : QRState) : QRState × List QRAction :=
  let shouldReconnect := statusCode ≠ some DisconnectReason_loggedOut ∧ accountCreated = false
  if accountCreated then
    ({ st with pendingQR := false, reconnectionAttempts := none }, [])
  else if shouldReconnect then
    let attempts := st.reconnectionAttempts.getD 0
    if attempts ≥ MAX_RECONNECTION_ATTEMPTS then
      ({ reconnectionAttempts := none, pendingQR := false, tempSessionExists := false },
        [.cleanupTempSession])
    else
      ({ st with reconnectionAttempts := some (attempts + 1) },
        [.scheduleReconnect 3000])
  else
    ({ reconnectionAttempts := none, pendingQR := false, tempSessionExists := false },
      [.cleanupTempSession])

/-- Repeated transient closes of a pairing session (account not created):
final state and how many reconnections were scheduled. -/
def qrTransientCloses : Nat → QRState → QRState × Nat
  | 0, st => (st, 0)
  | n + 1, st =>
      let r := initializeQRClient_onClose (some DisconnectReason_connectionClosed) false st
      let rest := qrTransientCloses n r.1
      (rest.1, rest.2 + r.2.count (.scheduleReconnect 3000))

/-! ## The pairing-migration wait (open branch of `initializeQRClient`)

After creating the account and migrating the session blob, the open branch
calls `initializeClient` with the permanent token and installs a
connection.update listener on the returned socket together with a 30000 ms
timer: the first open event before the timer resolves the wait, the first
close event or the timer rejects it.  Independently of that wait, the
handler installed by `initializeClient` itself adds the permanent token to
the clients map at every open event and removes it at every close event. -/

/-- Connection states a connection.update event can carry. -/
inductive ConnState where
  | connecting : ConnState
  | isOpen : ConnState
  | closed : ConnState
deriving DecidableEq, Repr

/-- One connection.update event of the permanent socket, timed from the
moment the wait was armed. -/
structure ConnEvent where
  time : Nat
  conn : ConnState
deriving DecidableEq, Repr

/-- The migration wait timeout (30 s). -/
def PAIR_WAIT_TIMEOUT_MS : Nat := 30000

/-- Whether the wait promise resolves: the first non-connecting event must be
an open event delivered before the 30000 ms timer fires.  The event list is
in delivery order with times measured from arming the wait. -/
def waitForPermanentOpen (events : List ConnEvent) : Bool :=
  match events.find? (fun e => e.conn ≠ ConnState.connecting) with
  | some e => e.conn = ConnState.isOpen ∧ e.time < PAIR_WAIT_TIMEOUT_MS
  | none => false

/-- Whether the clients map ever receives the permanent token: the handler of
`initializeClient` sets it at every open event. -/
def permTokenEverRegistered (events : List ConnEvent) : Bool :=
  events.any (fun e => e.conn = ConnState.isOpen)

/-- Effect of one connection.update event of the permanent socket on whether
the clients map holds the permanent token: set at open, deleted at close,
untouched otherwise. -/
def regStep (inRegistry : Bool) (e : ConnEvent) : Bool :=
  match e.conn with
  | .isOpen => true
  | .closed => false
  | .connecting => inRegistry

/-- Whether the clients map holds the permanent token after the whole event
list is processed. -/
def permTokenRegisteredAfter (events : List ConnEvent) : Bool :=
  events.foldl regStep false

/-! ## The session-migration block (open branch of `initializeQRClient`)

Order of operations in the source: `createAccountFromWhatsApp` (which runs
`updateWhatsAppConnectionDetails`, setting the permanent tenant record to
isConnected = true) comes first; then the temp session record is read and, if
present, copied to the permanent token with prisma.session.create, whose
attached catch callback performs an update when the error is the duplicate-key
code P2002 and swallows every other error; then `deleteAuthStateFromDB`
removes the temp session record unconditionally. -/

/-- Outcome of the prisma.session.create call that copies the blob. -/
inductive CopyOutcome where
  | ok : CopyOutcome
  | dupKey : CopyOutcome
  | failed : CopyOutcome
deriving DecidableEq, Repr

/-- Store and tenant-record state touched by the migration block. -/
structure MigrationState where
  permIsConnected : Bool
  tempSessionExists : Bool
  permSessionExists : Bool
deriving DecidableEq, Repr

/-- The migration block of the open branch, given whether a pending pairing
record exists and how the copy call turns out. -/
def initializeQRClient_onOpenMigration (pendingExists : Bool) (copyRes : CopyOutcome)
    (st : MigrationState) : MigrationState :=
  if pendingExists = false then
    { st with tempSessionExists := false }
  else
    let st1 : MigrationState := { st with permIsConnected := true }
    let st2 : MigrationState :=
      if st1.tempSessionExists then
        match copyRes with
        | .ok => { st1 with permSessionExists := true }
        | .dupKey => { st1 with permSessionExists := true }
        | .failed => st1
      else st1
    { st2 with tempSessionExists := false }

/-! ## UserService.markAsDisconnected (src/services/UserService.ts) -/

/-- The persisted tenant record (whatsapp_accounts row) as the service reads
it. -/
structure WhatsAppAccount where
  userId : Nat
  phoneNumber : Option String
  whatsappName : Option String
  isConnected : Bool
deriving DecidableEq, Repr

/-- The owning user as the service reads it; email is absent when the column
is null or the empty string (both falsy in the source condition). -/
structure AppUser where
  name : String
  email : Option String
deriving DecidableEq, Repr

/-- Outcome of UserService.markAsDisconnected: the model return value, whether
the notification dispatcher (EmailService.sendDisconnectionNotification) was
invoked, and the updated tenant record. -/
structure DisconnectOutcome where
  result : Bool
  emailSent : Bool
  account : WhatsAppAccount
deriving DecidableEq, Repr

/-- UserService.markAsDisconnected.  account and user are what
getWhatsAppAccountWithUser returns for the token; the model update
(WhatsAppAccountModel.markAsDisconnected) sets isConnected to false and
returns true for an existing record. -/
def UserService_markAsDisconnected (accountToken : String) (sendEmail : Bool)
    (account : Option WhatsAppAccount) (user : Option AppUser) :
    Except String DisconnectOutcome :=
  if accountToken = "" then
    .error "Account token is required"
  else
    match account with
    | none => .error "WhatsApp account not found"
    | some acc =>
        let wasAlreadyDisconnected := !acc.isConnected
        let result := true
        let emailSent := sendEmail && !wasAlreadyDisconnected && result &&
          (match user with
           | some u => u.email.isSome
           | none => false)
        .ok { result := result, emailSent := emailSent,
              account := { acc with isConnected := false } }

/-! ## Startup restoration (src/services/legacyAccountManager.ts)

`initializeAccounts` walks every tenant record persisted with
isConnected = true; for each it asks `authStateExists` and either marks the
record disconnected (through the account-service wrapper, which like
UserService.markAsDisconnected without the sendEmail flag sends no
notification — the wrapper itself is not part of this snapshot and its
no-notification behaviour is taken from the specification) and counts a
failure, or calls `initializeClient` and counts a restoration. -/

/-- One effect of the restoration loop. -/
inductive BootAction where
  | markDisconnected (token : String) (notify : Bool)
  | initClient (token : String)
deriving DecidableEq, Repr

/-- Result of the restoration loop. -/
structure BootSummary where
  restored : Nat
  failed : Nat
  actions : List BootAction
deriving DecidableEq, Repr

/-- The per-account loop of `initializeAccounts`, over the tokens of the
records persisted as connected, with hasSession the session-store existence
check. -/
def initializeAccountsLoop (hasSession : String → Bool) : List String → BootSummary
  | [] => { restored := 0, failed := 0, actions := [] }
  | t :: ts =>
      let rest := initializeAccountsLoop hasSession ts
      if hasSession t then
        { restored := rest.restored + 1, failed := rest.failed,
          actions := .initClient t :: rest.actions }
      else
        { restored := rest.restored, failed := rest.failed + 1,
          actions := .markDisconnected t false :: rest.actions }

/-! ## The keys.set handler and saveCreds (src/whatsapp/dbAuthState.ts)

keys.set first mutates the in-memory keys map — for every category and id,
a truthy value is stored under the key category-id and a falsy one deletes
that key — and only then awaits saveCreds, which encodes the full snapshot
and upserts it; a store failure is logged and rethrown, and nothing restores
the keys map. -/

/-- JavaScript truthiness of a `JSVal`. -/
def jsTruthy : JSVal → Bool
  | .null => false
  | .bool b => b
  | .num n => n ≠ 0
  | .str s => s ≠ ""
  | .buf _ => true
  | .arr _ => true
  | .obj _ => true

/-- The inner for-in loop of keys.set for one category: entries are id-value
pairs, value absent models undefined. -/
def keysSetCategory (category : String) :
    List (String × Option JSVal) → List (String × JSVal) → List (String × JSVal)
  | [], keys => keys
  | (id, value) :: es, keys =>
      let key := category ++ "-" ++ id
      let keys' :=
        match value with
        | some v => if jsTruthy v then mapSet keys key v else mapErase keys key
        | none => mapErase keys key
      keysSetCategory category es keys'

/-- The outer for-in loop of keys.set over categories. -/
def keysSetAll :
    List (String × List (String × Option JSVal)) → List (String × JSVal) →
      List (String × JSVal)
  | [], keys => keys
  | (category, entries) :: ds, keys =>
      keysSetAll ds (keysSetCategory category entries keys)

/-- Whether the session-store upsert inside saveCreds succeeds. -/
inductive StoreWrite where
  | ok : StoreWrite
  | ioError : StoreWrite
deriving DecidableEq, Repr

/-- saveCreds: encode the full in-memory snapshot and upsert it; on store
failure the error is logged and rethrown. -/
def saveCredsResult (w : StoreWrite) (creds keys : JSVal) : Except String JSVal :=
  match w with
  | .ok => .ok (bufferToJSON (.obj [("creds", creds), ("keys", keys)]))
  | .ioError => .error "Error saving credentials to database"

/-- The keys.set handler: mutate the keys map, then await saveCreds; the
mutated map and the propagated outcome of the save. -/
def keysSetHandler (w : StoreWrite) (creds : JSVal)
    (keys : List (String × JSVal))
    (data : List (String × List (String × Option JSVal))) :
    List (String × JSVal) × Except String JSVal :=
  let keys' := keysSetAll data keys
  (keys', saveCredsResult w creds (.obj keys'))

/-! ## Helper lemmas for the claim theorems -/

theorem regStep_foldl_true : ∀ (events : List ConnEvent) (acc : Bool),
    List.foldl regStep acc events = true →
    acc = true ∨ ∃ e ∈ events, e.conn = ConnState.isOpen := by
  intro events
  induction events with
  | nil => exact fun acc h => Or.inl h
  | cons e es ih =>
      intro acc h
      rw [List.foldl_cons] at h
      rcases ih (regStep acc e) h with h' | h'
      · cases hc : e.conn with
        | connecting =>
            simp only [regStep, hc] at h'
            exact Or.inl h'
        | isOpen => exact Or.inr ⟨e, by simp, hc⟩
        | closed =>
            simp [regStep, hc] at h'
      · obtain ⟨e', he', hc'⟩ := h'
        exact Or.inr ⟨e', by simp [he'], hc'⟩

theorem initializeAccountsLoop_length (f : String → Bool) :
    ∀ ts : List String, (initializeAccountsLoop f ts).actions.length = ts.length := by
  intro ts
  induction ts with
  | nil => rfl
  | cons t ts ih =>
      simp only [initializeAccountsLoop]
      by_cases h : f t = true
      · simp [h, ih]
      · simp [h, ih]

theorem initializeAccountsLoop_initClient_mem (f : String → Bool) :
    ∀ (ts : List String) (u : String),
      BootAction.initClient u ∈ (initializeAccountsLoop f ts).actions → f u = true := by
  intro ts
  induction ts with
  | nil => intro u h; simp [initializeAccountsLoop] at h
  | cons t ts ih =>
      intro u h
      simp only [initializeAccountsLoop] at h
      by_cases hf : f t = true
      · rw [if_pos hf] at h
        simp only [List.mem_cons] at h
        rcases h with h | h
        · cases h
          exact hf
        · exact ih u h
      · rw [if_neg hf] at h
        simp only [List.mem_cons] at h
        rcases h with h | h
        · cases h
        · exact ih u h

theorem initializeAccountsLoop_mark_notify (f : String → Bool) :
    ∀ (ts : List String) (tok : String) (b : Bool),
      BootAction.markDisconnected tok b ∈ (initializeAccountsLoop f ts).actions →
        b = false := by
  intro ts
  induction ts with
  | nil => intro tok b h; simp [initializeAccountsLoop] at h
  | cons t ts ih =>
      intro tok b h
      simp only [initializeAccountsLoop] at h
      by_cases hf : f t = true
      · rw [if_pos hf] at h
        simp only [List.mem_cons] at h
        rcases h with h | h
        · cases h
        · exact ih tok b h
      · rw [if_neg hf] at h
        simp only [List.mem_cons] at h
        rcases h with h | h
        · cases h
          rfl
        · exact ih tok b h

theorem initializeAccountsLoop_mark_mem (f : String → Bool) :
    ∀ (ts : List String) (t : String), t ∈ ts → f t = false →
      BootAction.markDisconnected t false ∈ (initializeAccountsLoop f ts).actions := by
  intro ts
  induction ts with
  | nil => intro t h; simp at h
  | cons t' ts ih =>
      intro t ht hf
      simp only [List.mem_cons] at ht
      simp only [initializeAccountsLoop]
      rcases ht with rfl | ht
      · rw [if_neg (by simp [hf])]
        exact List.mem_cons_self _ _
      · by_cases hf' : f t' = true
        · rw [if_pos hf']
          exact List.mem_cons_of_mem _ (ih t ht hf)
        · rw [if_neg hf']
          exact List.mem_cons_of_mem _ (ih t ht hf)

/-! ## Claim theorems -/

/-- C1 (counterexample).  The round trip is not the identity on every value
with arbitrary unknown extra keys: a plain (non-Buffer) object that already
carries the tag shape — a type field holding the string Buffer next to a
data field holding a string — is passed through unchanged by bufferToJSON
and then turned into a Buffer by jsonToBuffer, so decode of encode differs
from the input. -/
theorem C1_counterexample :
    jsonToBuffer (bufferToJSON
        (.obj [("foo", .obj [("type", .str "Buffer"), ("data", .str "AA==")])])) =
      .obj [("foo", .buf [0])] ∧
    JSVal.obj [("foo", JSVal.buf [0])] ≠
      .obj [("foo", .obj [("type", .str "Buffer"), ("data", .str "AA==")])] := by
  decide

/-- C1 (amended).  For every value whose binary entries are bytes and in
which no plain object already carries the codec tag shape — in particular
every credential object with Buffer or Uint8Array values nested at arbitrary
depth inside objects and arrays, and with arbitrary other unknown keys —
decoding the encoding gives back a structurally equal value:
jsonToBuffer (bufferToJSON x) = x, non-binary scalars and unknown fields
passing through unchanged. -/
theorem C1_roundtrip (x : JSVal) (h : clientValue x = true) :
    jsonToBuffer (bufferToJSON x) = x :=
  jsonToBuffer_bufferToJSON x h

theorem C1_roundtrip_witness :
    clientValue
        (.obj [("creds",
            .obj [("noiseKey", .buf [1, 255, 0]), ("registered", .bool false)]),
          ("keys", .arr [.buf [7], .str "x", .arr [.buf [0, 128]]])]) = true ∧
    jsonToBuffer (bufferToJSON
        (.obj [("creds",
            .obj [("noiseKey", .buf [1, 255, 0]), ("registered", .bool false)]),
          ("keys", .arr [.buf [7], .str "x", .arr [.buf [0, 128]]])])) =
      .obj [("creds",
          .obj [("noiseKey", .buf [1, 255, 0]), ("registered", .bool false)]),
        ("keys", .arr [.buf [7], .str "x", .arr [.buf [0, 128]]])] :=
  ⟨by decide, C1_roundtrip _ (by decide)⟩

/-- C9.  The encoder output is free of Buffer and Uint8Array values at every
depth, and every binary value is replaced by exactly the plain object whose
type field holds the string Buffer and whose data field holds the base64
string of its bytes — so the encoded state is a plain JSON value. -/
theorem C9_encoder_output_buffer_free :
    (∀ x : JSVal, bufFree (bufferToJSON x) = true) ∧
    (∀ bs : List Nat, bufferToJSON (.buf bs) =
      .obj [("type", .str "Buffer"), ("data", .str (b64encode bs))]) :=
  ⟨bufFree_bufferToJSON, fun _ => rfl⟩

/-- C2 (counterexample).  The steady-state handler installed by
initializeClient keeps no reconnect counter: six consecutive transient
closes of a linked tenant schedule six reconnections, not five — there is a
sixth attempt, contradicting the claimed ceiling for sessions in the LINKED
state. -/
theorem C2_counterexample :
    (mgrTransientCloses "tenant" 6 { clients := [("tenant", 1)], qrCodes := [] }).2 = 6 ∧
    (6 : Nat) ≠ 5 := by
  decide

/-- C2 (amended).  The attempt counter with ceiling 5 exists only in the QR
pairing handler (initializeQRClient): starting from a fresh counter, six
consecutive transient closes of a pairing session schedule exactly five
reconnections, and the sixth close schedules none and performs terminal
cleanup of the temporary session; the steady-state handler
(initializeClient) schedules a reconnection on every transient close without
any ceiling. -/
theorem C2_retry_ceiling :
    (qrTransientCloses 6
        { reconnectionAttempts := none, pendingQR := true, tempSessionExists := true }).2 = 5 ∧
    initializeQRClient_onClose (some DisconnectReason_connectionClosed) false
        (qrTransientCloses 5
          { reconnectionAttempts := none, pendingQR := true, tempSessionExists := true }).1 =
      ({ reconnectionAttempts := none, pendingQR := false, tempSessionExists := false },
        [QRAction.cleanupTempSession]) ∧
    (mgrTransientCloses "tenant" 6 { clients := [("tenant", 1)], qrCodes := [] }).2 = 6 := by
  decide

/-- C3 (counterexample).  The 30-second migration wait and the registration
of the permanent token are independent: when the permanent connection opens
31000 ms after the wait was armed, the wait has already timed out (the
pairing attempt is reported failed), yet the open handler still adds the
permanent token to the clients map — a registry entry is created after the
timeout. -/
theorem C3_counterexample :
    waitForPermanentOpen [{ time := 31000, conn := .isOpen }] = false ∧
    permTokenEverRegistered [{ time := 31000, conn := .isOpen }] = true ∧
    permTokenRegisteredAfter [{ time := 31000, conn := .isOpen }] = true := by
  decide

/-- C3 (amended).  During pairing migration the permanent token is added to
the clients map only by an open event of its own fresh connection — if the
token is registered after the events are processed, some open event occurred
— and the migration wait succeeds only when an open event arrives within the
30000 ms timeout, the pairing attempt being reported failed otherwise; a
late open event can however still create the registry entry after the
timeout. -/
theorem C3_registered_only_after_open (events : List ConnEvent) :
    (permTokenRegisteredAfter events = true → ∃ e ∈ events, e.conn = ConnState.isOpen) ∧
    (waitForPermanentOpen events = true →
      ∃ e ∈ events, e.conn = ConnState.isOpen ∧ e.time < PAIR_WAIT_TIMEOUT_MS) := by
  constructor
  · intro h
    rcases regStep_foldl_true events false h with h' | h'
    · cases h'
    · exact h'
  · intro h
    unfold waitForPermanentOpen at h
    cases hf : events.find? (fun e => e.conn ≠ ConnState.connecting) with
    | none => rw [hf] at h; cases h
    | some e =>
        rw [hf] at h
        have he := List.mem_of_find?_eq_some hf
        exact ⟨e, he, of_decide_eq_true h⟩

theorem C3_registered_only_after_open_witness :
    (∃ e ∈ [({ time := 5, conn := .isOpen } : ConnEvent)], e.conn = ConnState.isOpen) ∧
    (∃ e ∈ [({ time := 5, conn := .isOpen } : ConnEvent)],
      e.conn = ConnState.isOpen ∧ e.time < PAIR_WAIT_TIMEOUT_MS) :=
  ⟨(C3_registered_only_after_open [{ time := 5, conn := .isOpen }]).1 (by decide),
   (C3_registered_only_after_open [{ time := 5, conn := .isOpen }]).2 (by decide)⟩

/-- C4 (counterexample).  On a terminal (loggedOut) close of a linked tenant
the handler emits no markDisconnected and no notifyDispatcher effect at all:
the notification dispatcher is invoked zero times, not exactly once, and the
persisted record is not touched. -/
theorem C4_counterexample :
    (initializeClient_onClose "tenant" (some DisconnectReason_loggedOut)
        { clients := [("tenant", 1)], qrCodes := [("tenant", "qr")] }).actions = [] ∧
    (initializeClient_onClose "tenant" (some DisconnectReason_loggedOut)
        { clients := [("tenant", 1)], qrCodes := [("tenant", "qr")] }).actions.count
      (MgrAction.notifyDispatcher "tenant") = 0 ∧
    (initializeClient_onClose "tenant" (some DisconnectReason_loggedOut)
        { clients := [("tenant", 1)], qrCodes := [("tenant", "qr")] }).actions.count
      (MgrAction.markDisconnected "tenant" true) = 0 ∧
    (0 : Nat) ≠ 1 := by
  decide

/-- C4 (amended).  When a linked tenant closes with the terminal cause
(loggedOut) no reconnection is scheduled and the tenant is removed from the
clients map and from the QR cache, but the handler performs no persistence
update and never invokes the notification dispatcher — the persisted record
and the notifier are untouched by the lifecycle manager on logout. -/
theorem C4_logout_cleanup (token : String) (st : MgrState) :
    (initializeClient_onClose token (some DisconnectReason_loggedOut) st).actions = [] ∧
    (initializeClient_onClose token (some DisconnectReason_loggedOut) st).state.clients =
      mapErase st.clients token ∧
    getClient token (initializeClient_onClose token (some DisconnectReason_loggedOut) st).state =
      none ∧
    (initializeClient_onClose token (some DisconnectReason_loggedOut) st).state.qrCodes =
      mapErase st.qrCodes token := by
  simp [initializeClient_onClose, getClient, mapLookup_mapErase_self]

/-- C10.  Every close event, terminal or transient, deletes the clients map
entry for the token before the reconnect decision: the state produced by the
close branch never contains the token, so getClient returns nothing
immediately after every disconnect and for the whole reconnect-delay window
(the entry only reappears through a later open event). -/
theorem C10_close_always_unregisters (token : String) (statusCode : Option Nat)
    (st : MgrState) :
    (initializeClient_onClose token statusCode st).state.clients =
      mapErase st.clients token ∧
    getClient token (initializeClient_onClose token statusCode st).state = none := by
  unfold initializeClient_onClose getClient
  by_cases h : statusCode ≠ some DisconnectReason_loggedOut
  · simp [h, mapLookup_mapErase_self]
  · simp [h, mapLookup_mapErase_self]

/-- C5.  UserService.markAsDisconnected is idempotent with respect to
notification: for a tenant whose persisted record already has
isConnected = false, a further call — whatever the notify flag — does not
invoke the notification dispatcher. -/
theorem C5_idempotent_notification (accountToken : String) (sendEmail : Bool)
    (acc : WhatsAppAccount) (user : Option AppUser) (r : DisconnectOutcome)
    (hdisc : acc.isConnected = false)
    (h : UserService_markAsDisconnected accountToken sendEmail (some acc) user = .ok r) :
    r.emailSent = false := by
  unfold UserService_markAsDisconnected at h
  by_cases ht : accountToken = ""
  · simp [ht] at h
  · simp only [if_neg ht, Except.ok.injEq] at h
    subst h
    simp [hdisc]

theorem C5_idempotent_notification_witness :
    ({ userId := 1, phoneNumber := some "15550001111", whatsappName := some "w",
        isConnected := false } : WhatsAppAccount).isConnected = false ∧
    UserService_markAsDisconnected "tok1" true
        (some { userId := 1, phoneNumber := some "15550001111",
                whatsappName := some "w", isConnected := false })
        (some { name := "owner", email := some "owner@example.com" }) =
      .ok { result := true, emailSent := false,
            account := { userId := 1, phoneNumber := some "15550001111",
                         whatsappName := some "w", isConnected := false } } ∧
    ({ result := true, emailSent := false,
       account := { userId := 1, phoneNumber := some "15550001111",
                    whatsappName := some "w", isConnected := false } } :
      DisconnectOutcome).emailSent = false :=
  ⟨rfl, rfl,
    C5_idempotent_notification "tok1" true
      { userId := 1, phoneNumber := some "15550001111", whatsappName := some "w",
        isConnected := false }
      (some { name := "owner", email := some "owner@example.com" })
      { result := true, emailSent := false,
        account := { userId := 1, phoneNumber := some "15550001111",
                     whatsappName := some "w", isConnected := false } }
      rfl rfl⟩

/-- C6.  Startup restoration: every tenant persisted as connected whose
session record is absent from the store is marked disconnected without
notification, gets no client initialization, and the loop still processes
every tenant (one action per record). -/
theorem C6_boot_reconciliation (tokens : List String) (hasSession : String → Bool)
    (t : String) (hmem : t ∈ tokens) (hmiss : hasSession t = false) :
    BootAction.markDisconnected t false ∈ (initializeAccountsLoop hasSession tokens).actions ∧
    BootAction.initClient t ∉ (initializeAccountsLoop hasSession tokens).actions ∧
    (∀ tok b, BootAction.markDisconnected tok b ∈
        (initializeAccountsLoop hasSession tokens).actions → b = false) ∧
    (initializeAccountsLoop hasSession tokens).actions.length = tokens.length := by
  refine ⟨initializeAccountsLoop_mark_mem hasSession tokens t hmem hmiss, ?_, ?_, ?_⟩
  · intro hinit
    have := initializeAccountsLoop_initClient_mem hasSession tokens t hinit
    rw [hmiss] at this
    cases this
  · exact initializeAccountsLoop_mark_notify hasSession tokens
  · exact initializeAccountsLoop_length hasSession tokens

theorem C6_boot_reconciliation_witness :
    BootAction.markDisconnected "a" false ∈
      (initializeAccountsLoop (fun s => s == "b") ["a", "b"]).actions ∧
    BootAction.initClient "a" ∉
      (initializeAccountsLoop (fun s => s == "b") ["a", "b"]).actions ∧
    (∀ tok b, BootAction.markDisconnected tok b ∈
        (initializeAccountsLoop (fun s => s == "b") ["a", "b"]).actions → b = false) ∧
    (initializeAccountsLoop (fun s => s == "b") ["a", "b"]).actions.length =
      (["a", "b"] : List String).length :=
  C6_boot_reconciliation ["a", "b"] (fun s => s == "b") "a" (by decide) (by decide)

/-- C7 (counterexample).  Running the migration block with an existing temp
session and a failing (non-duplicate) copy leaves the permanent tenant
record marked connected and the temp session deleted: the connected flag was
set before the copy and the copy failure is swallowed by the catch callback,
so the unconditional temp-session delete still runs. -/
theorem C7_counterexample :
    initializeQRClient_onOpenMigration true .failed
        { permIsConnected := false, tempSessionExists := true, permSessionExists := false } =
      { permIsConnected := true, tempSessionExists := false, permSessionExists := false } ∧
    (initializeQRClient_onOpenMigration true .failed
        { permIsConnected := false, tempSessionExists := true,
          permSessionExists := false }).permIsConnected = true ∧
    (initializeQRClient_onOpenMigration true .failed
        { permIsConnected := false, tempSessionExists := true,
          permSessionExists := false }).tempSessionExists = false := by
  decide

/-- C7 (amended).  Migration is not atomic: whenever the copy step fails with
a non-duplicate error, the error is swallowed, the permanent tenant record
has already been marked isConnected = true by the earlier account-creation
step, the temporary session record is deleted anyway, and only the permanent
session record itself is left unwritten. -/
theorem C7_migration_not_atomic (st : MigrationState) :
    (initializeQRClient_onOpenMigration true .failed st).permIsConnected = true ∧
    (initializeQRClient_onOpenMigration true .failed st).tempSessionExists = false ∧
    (initializeQRClient_onOpenMigration true .failed st).permSessionExists =
      st.permSessionExists := by
  unfold initializeQRClient_onOpenMigration
  by_cases h : st.tempSessionExists = true
  · simp [h]
  · simp [h]

/-- C8.  When the session-store write inside saveCreds fails, the keys.set
handler propagates the error to its caller, yet the in-memory keys map keeps
exactly the state the mutation loop produced — identical to the map after a
successful save — and in particular a freshly stored key is still present
with its new value after the failed save. -/
theorem C8_failed_save_keeps_new_keys (creds : JSVal) (keys : List (String × JSVal))
    (data : List (String × List (String × Option JSVal)))
    (category id : String) (v : JSVal) (hv : jsTruthy v = true) :
    (keysSetHandler .ioError creds keys data).2 =
      .error "Error saving credentials to database" ∧
    (keysSetHandler .ioError creds keys data).1 = (keysSetHandler .ok creds keys data).1 ∧
    mapLookup (keysSetHandler .ioError creds keys [(category, [(id, some v)])]).1
      (category ++ "-" ++ id) = some v := by
  refine ⟨rfl, rfl, ?_⟩
  show mapLookup (keysSetAll [(category, [(id, some v)])] keys) (category ++ "-" ++ id) = some v
  simp only [keysSetAll, keysSetCategory, hv, if_true]
  exact mapLookup_mapSet_self keys (category ++ "-" ++ id) v

theorem C8_failed_save_keeps_new_keys_witness :
    (keysSetHandler .ioError (.obj []) [] []).2 =
      .error "Error saving credentials to database" ∧
    (keysSetHandler .ioError (.obj []) [] []).1 = (keysSetHandler .ok (.obj []) [] []).1 ∧
    mapLookup (keysSetHandler .ioError (.obj [])
        [] [("app-state-sync-key", [("k1", some (.str "fresh"))])]).1
      ("app-state-sync-key" ++ "-" ++ "k1") = some (.str "fresh") :=
  C8_failed_save_keeps_new_keys (.obj []) [] [] "app-state-sync-key" "k1"
    (.str "fresh") (by decide)
